import Mathlib

/-!
Shallow embedding of `src/main.py` (AQI fetch / classify / map / report
pipeline) and proofs of the specification claims about it.

Python numeric values are modelled by `ℚ` (exact arithmetic; the program
only compares and rounds, so rationals are adequate for every claim except
the haversine distance, which is modelled over `ℝ`).
-/

/-- A Python value as it occurs in a station-record field: `None`, a
string, or a number. -/
inductive PyVal where
  | pyNone
  | str (s : String)
  | num (q : ℚ)
deriving DecidableEq, Repr

/-- Python truthiness of a `PyVal`: `None` is falsy, a string is truthy iff
non-empty, a number is truthy iff non-zero. -/
def PyVal.truthy : PyVal → Bool
  | .pyNone => false
  | .str s => !s.isEmpty
  | .num q => q != 0

/-- One digit of a decimal literal. -/
def digitVal (c : Char) : Option ℕ :=
  if c.isDigit then some (c.toNat - Char.toNat (Char.ofNat 48)) else none

/-- A non-empty all-digit run read as a natural number. -/
def parseNatDigits (cs : List Char) : Option ℕ :=
  if cs.isEmpty then none
  else cs.foldl (fun acc c => acc.bind fun n => (digitVal c).map fun d => 10 * n + d) (some 0)

/-- Surrounding whitespace removed (Python `float` strips it). -/
def trimChars (cs : List Char) : List Char :=
  ((cs.dropWhile (·.isWhitespace)).reverse.dropWhile (·.isWhitespace)).reverse

/-- The digits before the first `.` and, when a `.` is present, the digits
after it; a second `.` is a syntax error. -/
def splitDot (cs : List Char) : Option (List Char × Option (List Char)) :=
  let ip := cs.takeWhile (· ≠ '.')
  match cs.dropWhile (· ≠ '.') with
  | [] => some (ip, Option.none)
  | _ :: frac => if frac.contains '.' then none else some (ip, some frac)

/-- The unsigned part of a decimal literal: digits with an optional single
decimal point (`"1"`, `"2.5"`, `".5"`, `"1."`). -/
def pyFloatChars (cs : List Char) : Option ℚ :=
  match splitDot cs with
  | Option.none => none
  | some (ip, Option.none) => (parseNatDigits ip).map fun n => (n : ℚ)
  | some (ip, some fp) =>
    if ip.isEmpty && fp.isEmpty then none
    else
      let i := if ip.isEmpty then some 0 else parseNatDigits ip
      let f := if fp.isEmpty then some 0 else parseNatDigits fp
      match i, f with
      | some iv, some fv => some ((iv : ℚ) + (fv : ℚ) / (10 : ℚ) ^ fp.length)
      | _, _ => none

/-- Model of Python `float(s)` on a string: optional surrounding
whitespace, optional sign, decimal digits with an optional single decimal
point.  Exponent/`inf`/`nan` notations are not modelled; they do not occur
in the claims.  A non-matching string is a `ValueError`, i.e. `none`. -/
def pyFloatString (s : String) : Option ℚ :=
  match trimChars s.data with
  | '-' :: rest => (pyFloatChars rest).map (fun q => -q)
  | '+' :: rest => pyFloatChars rest
  | cs => pyFloatChars cs

/-- Model of Python `float(v)` on an arbitrary value: `float(None)` raises
`TypeError` (`none`), a string goes through `float(str)`, a number is
returned as is. -/
def pyFloat : PyVal → Option ℚ
  | .pyNone => none
  | .str s => pyFloatString s
  | .num q => some q

/-- Table `AQIMapVisualizer.AQI_LEVELS`: the ordered band table
`[(0, 50, 良好, green), (51, 100, 普通, yellow), (101, 500, 不健康, red)]`. -/
def AQI_LEVELS : List (ℚ × ℚ × String × String) :=
  [(0, 50, "良好", "#2ecc71"), (51, 100, "普通", "#ffd700"), (101, 500, "不健康", "#ff4444")]

/-- Classifier `AQIMapVisualizer.get_aqi_level`: `aqi_val = float(aqi) if aqi else 0`
(a falsy input is coerced to `0` without calling `float`); a failed
conversion returns the unknown tier; otherwise the first band with
`min ≤ aqi_val ≤ max` wins, and the fall-through is the hazardous tier. -/
def get_aqi_level (aqi : PyVal) : String × String :=
  match (if aqi.truthy then pyFloat aqi else some 0) with
  | Option.none => ("未知", "#95a5a6")
  | Option.some v =>
    (AQI_LEVELS.findSome? fun b =>
      if b.1 ≤ v ∧ v ≤ b.2.1 then some (b.2.2.1, b.2.2.2) else Option.none).getD
      ("危害", "#4b0082")

/-- One station record (a Python dict).  A field is `Option.none` when the
key is absent from the dict; `some .pyNone` is an explicit `None` value.
Constructor field order: sitename, county, aqi, pollutant, status,
latitude, longitude, publishtime. -/
structure Record where
  sitename : Option PyVal
  county : Option PyVal
  aqi : Option PyVal
  pollutant : Option PyVal
  status : Option PyVal
  latitude : Option PyVal
  longitude : Option PyVal
  publishtime : Option PyVal
deriving DecidableEq, Repr

/-- Python `r.get(key)`: an absent key reads as `None`. -/
def getField : Option PyVal → PyVal
  | Option.none => .pyNone
  | some v => v

/-- Python `r.get(key, default)`: the default is used only when the key is
absent (an explicit stored `None` is returned as is). -/
def getFieldD (f : Option PyVal) (d : PyVal) : PyVal :=
  f.getD d

/-- The JSON value stored under the records key of an envelope object, as
`data.get('records', [])` sees it: the key may be absent (the default `[]`
applies), hold an explicit JSON `null` (the stored `None` is returned, and
`len(records)` then raises `TypeError`), or hold a list.  Other JSON types
for this field (string, number, object) do not occur in the claims and are
not modelled. -/
inductive RecordsField where
  /-- key absent: `data.get('records', [])` yields the default `[]` -/
  | absent
  /-- explicit JSON `null`: `data.get('records', [])` yields `None` -/
  | null
  /-- a JSON list of station records -/
  | list (rs : List Record)
deriving DecidableEq, Repr

/-- The possible outcomes of the HTTP GET plus JSON decode inside
`AQIDataFetcher.fetch_aqi_data`, as the code observes them. -/
inductive ApiResponse where
  /-- connection error / timeout: `requests.exceptions.RequestException` -/
  | transportFailure
  /-- non-success HTTP status: `response.raise_for_status()` raises, also
  a `RequestException` -/
  | httpFailure
  /-- body not parsable as JSON: `json.JSONDecodeError` -/
  | invalidJson
  /-- body is a bare JSON list -/
  | jsonList (records : List Record)
  /-- body is a JSON object; `success` is the truthiness of
  `data.get('success')`, `records` the value stored under the records
  key -/
  | jsonDict (success : Bool) (records : RecordsField) (message : Option String)
  /-- body is JSON but neither list nor dict -/
  | jsonOther
deriving DecidableEq, Repr

/-- Fetcher `AQIDataFetcher.fetch_aqi_data`: transport, HTTP-status and
JSON-decode failures are caught and return `None` (`.ok none`), as do a
falsy success flag and an unexpected JSON shape; a bare list is returned
as is; a truthy-success envelope returns `data.get('records', [])` —
except that when that stored value is an explicit `null`, the
`len(records)` progress line raises a `TypeError` that no `except` clause
catches, escaping to the caller (`.error ()`). -/
def fetch_aqi_data : ApiResponse → Except Unit (Option (List Record))
  | .transportFailure => .ok none
  | .httpFailure => .ok none
  | .invalidJson => .ok none
  | .jsonList rs => .ok (some rs)
  | .jsonDict true .absent _ => .ok (some [])
  | .jsonDict true .null _ => .error ()
  | .jsonDict true (.list rs) _ => .ok (some rs)
  | .jsonDict false _ _ => .ok none
  | .jsonOther => .ok none

/-- A marker placed on the folium map: position, popup fields and the
severity tier. -/
structure Marker where
  lat : ℚ
  lon : ℚ
  site_name : PyVal
  county : PyVal
  aqi : PyVal
  level : String
  color : String
deriving DecidableEq, Repr

/-- The truthiness filter at the top of `create_map`:
`r.get('latitude') and r.get('longitude') and r.get('sitename')`. -/
def valid_record (r : Record) : Bool :=
  (getField r.latitude).truthy && (getField r.longitude).truthy &&
    (getField r.sitename).truthy

/-- The marker loop body of `create_map` for one surviving record: `float`
both coordinates (a `ValueError`/`TypeError` skips the record via
`continue`), read the popup fields with their defaults, classify the index
value. -/
def buildMarker (r : Record) : Option Marker :=
  match pyFloat (getField r.latitude), pyFloat (getField r.longitude) with
  | some lat, some lon =>
    let site_name := getFieldD r.sitename (.str "未知測站")
    let county := getFieldD r.county (.str "")
    let aqi := getFieldD r.aqi (.str "N/A")
    let lc := get_aqi_level aqi
    some ⟨lat, lon, site_name, county, aqi, lc.1, lc.2⟩
  | _, _ => none

/-- The marker set drawn by `AQIMapVisualizer.create_map`: the records
surviving the truthiness filter, minus those whose coordinate conversion
raises. -/
def createMapMarkers (records : List Record) : List Marker :=
  (records.filter valid_record).filterMap buildMarker

/-- Renderer `AQIMapVisualizer.create_map` itself: returns `None` (no file written)
when the truthiness filter leaves nothing; otherwise saves the map and
returns its path — modelled as the list of markers drawn on it. -/
def create_map (records : List Record) : Option (List Marker) :=
  if records.filter valid_record = [] then none
  else some (createMapMarkers records)

/-- Conversion `math.radians`. -/
noncomputable def radians (x : ℝ) : ℝ := x * Real.pi / 180

/-- Python `round(x, 2)`, modelled with Mathlib's `round` (Python rounds
half to even, `round` half up; the difference is immaterial to the claims,
which never hit a half-cent boundary). -/
noncomputable def round2 (x : ℝ) : ℝ := (round (100 * x) : ℤ) / 100

/-- Function `calculate_distance`: the haversine great-circle distance in km with
Earth mean radius 6371, rounded to two decimals. -/
noncomputable def calculate_distance (lat1 lon1 lat2 lon2 : ℝ) : ℝ :=
  let R : ℝ := 6371
  let lat1_rad := radians lat1
  let lat2_rad := radians lat2
  let delta_lat := radians (lat2 - lat1)
  let delta_lon := radians (lon2 - lon1)
  let a := Real.sin (delta_lat / 2) ^ 2 +
    Real.cos lat1_rad * Real.cos lat2_rad * Real.sin (delta_lon / 2) ^ 2
  let c := 2 * Real.arcsin (Real.sqrt a)
  round2 (R * c)

/-- Predicate `pd.notna` on a DataFrame cell built from a record field: an absent
key becomes `NaN` in the frame, and an explicit `None` is also na. -/
def notna : Option PyVal → Bool
  | Option.none => false
  | some .pyNone => false
  | some _ => true

/-- One row of the tabular report: the record plus the computed
`距台北車站(公里)` column (`Option.none` = null/NaN). -/
structure Row where
  record : Record
  dist : Option ℝ

/-- Taipei Main Station, the fixed reference point of the report. -/
noncomputable def taipei_station_lat : ℝ := 25.0478

/-- Longitude of the reference point. -/
noncomputable def taipei_station_lon : ℝ := 121.5170

/-- The `df.apply` lambda of `create_data_report` on one row.
`row['latitude']` raises `KeyError` when the whole frame lacks the column
(`latCol`/`lonCol` say whether any input record carries the key); the
condition `pd.notna(row['latitude']) and pd.notna(row['longitude'])`
short-circuits; a present-but-non-convertible coordinate makes `float`
raise `ValueError` out of `apply` (`.error`); an na coordinate yields a
null distance. -/
noncomputable def rowDistance (latCol lonCol : Bool) (r : Record) : Except Unit (Option ℝ) :=
  if !latCol then .error ()
  else if notna r.latitude then
    if !lonCol then .error ()
    else if notna r.longitude then
      match pyFloat (getField r.latitude), pyFloat (getField r.longitude) with
      | some la, some lo =>
        .ok (some (calculate_distance (la : ℝ) (lo : ℝ) taipei_station_lat taipei_station_lon))
      | _, _ => .error ()
    else .ok none
  else .ok none

/-- Loop `df.apply(..., axis=1)`: the rows in order, aborted by the first
exception. -/
noncomputable def applyRows (latCol lonCol : Bool) : List Record → Except Unit (List Row)
  | [] => .ok []
  | r :: rs =>
    match rowDistance latCol lonCol r with
    | .error e => .error e
    | .ok d =>
      match applyRows latCol lonCol rs with
      | .error e => .error e
      | .ok rest => .ok (Row.mk r d :: rest)

/-- The report's sort key: `sort_values('距台北車站(公里)')` — ascending
by distance with `NaN` last (the pandas default `na_position='last'`).
Comparison of real distances is classical (`Real.decidableLE`). -/
noncomputable def rowLe (a b : Row) : Bool :=
  match a.dist, b.dist with
  | some x, some y => decide (x ≤ y)
  | some _, Option.none => true
  | Option.none, some _ => false
  | Option.none, Option.none => true

/-- Builder `AQIMapVisualizer.create_data_report`: build the distance column (any
exception aborts the report: caught, reported, `none` — no CSV written),
sort by distance ascending with nulls last, write the CSV.  An empty input
frame writes a header-only CSV before the `iloc[0]` summary line raises,
so it yields `some []`.  The column sub-selection keeps rows intact and is
not modelled. -/
noncomputable def create_data_report (records : List Record) : Option (List Row) :=
  if records.isEmpty then some []
  else
    let latCol := records.any fun r => r.latitude.isSome
    let lonCol := records.any fun r => r.longitude.isSome
    match applyRows latCol lonCol records with
    | .error _ => none
    | .ok rows => some (rows.mergeSort rowLe)

/-- The artifacts produced by one run of `main`: the map (its marker set)
and the report (its rows), each `Option.none` when not produced. -/
structure RunArtifacts where
  mapMarkers : Option (List Marker)
  report : Option (List Row)

/-- Orchestrator `main`: require a truthy `MOENV_API_KEY`, fetch, bail out
on `if not records` (both `None` and the empty list), otherwise create the
map and the report.  An exception raised out of the fetch propagates
through `main` (it has no handler): the whole result is `Option.none` and
no artifact is produced. -/
noncomputable def mainRun (api_key : Option String) (resp : ApiResponse) :
    Option RunArtifacts :=
  match api_key with
  | Option.none => some ⟨none, none⟩
  | some k =>
    if k.isEmpty then some ⟨none, none⟩
    else
      match fetch_aqi_data resp with
      | .error _ => none
      | .ok Option.none => some ⟨none, none⟩
      | .ok (some records) =>
        if records.isEmpty then some ⟨none, none⟩
        else some ⟨create_map records, create_data_report records⟩

/-- The intended report ordering of C6: non-decreasing distance, null
distances strictly after all non-null ones. -/
def reportOrder (a b : Row) : Prop :=
  match a.dist, b.dist with
  | some x, some y => x ≤ y
  | Option.none, some _ => False
  | _, _ => True

/-- On a numeric argument `get_aqi_level` classifies the number itself
(the `q = 0` falsy coercion replaces `0` by `0`). -/
theorem get_aqi_level_num (q : ℚ) :
    get_aqi_level (.num q) =
      if 0 ≤ q ∧ q ≤ 50 then ("良好", "#2ecc71")
      else if 51 ≤ q ∧ q ≤ 100 then ("普通", "#ffd700")
      else if 101 ≤ q ∧ q ≤ 500 then ("不健康", "#ff4444")
      else ("危害", "#4b0082") := by
  by_cases h : q = 0
  · subst h
    simp [get_aqi_level, PyVal.truthy, AQI_LEVELS, List.findSome?]
  · simp only [get_aqi_level, PyVal.truthy, bne_iff_ne, ne_eq, h, not_false_eq_true,
      ite_true, if_pos, pyFloat, AQI_LEVELS, List.findSome?_cons]
    split_ifs <;> simp [Option.getD]

/-- On a truthy argument whose float conversion succeeds with value `q`,
`get_aqi_level` classifies `q` through the band table. -/
theorem get_aqi_level_parsed (aqi : PyVal) (q : ℚ)
    (ht : aqi.truthy = true) (hp : pyFloat aqi = some q) :
    get_aqi_level aqi =
      if 0 ≤ q ∧ q ≤ 50 then ("良好", "#2ecc71")
      else if 51 ≤ q ∧ q ≤ 100 then ("普通", "#ffd700")
      else if 101 ≤ q ∧ q ≤ 500 then ("不健康", "#ff4444")
      else ("危害", "#4b0082") := by
  simp only [get_aqi_level, ht, ite_true, hp, AQI_LEVELS, List.findSome?_cons]
  split_ifs <;> simp [Option.getD]

/-- C1 (counterexample): the claim says `get_aqi_level` returns the
unknown tier (`未知`, neutral gray) on `None`, `""` and `-5`.  In the code
`aqi_val = float(aqi) if aqi else 0` coerces the falsy inputs `None` and
`""` to `0`, which lands in the first band (good), and `-5` matches no
band, falling through to the hazardous tier. -/
theorem get_aqi_level_none_not_unknown :
    get_aqi_level PyVal.pyNone = ("良好", "#2ecc71") ∧
    get_aqi_level (PyVal.str "") = ("良好", "#2ecc71") ∧
    get_aqi_level (PyVal.num (-5)) = ("危害", "#4b0082") ∧
    get_aqi_level PyVal.pyNone ≠ ("未知", "#95a5a6") ∧
    get_aqi_level (PyVal.num (-5)) ≠ ("未知", "#95a5a6") := by
  decide

/-- C1 (amended): missing (`None`) and empty-string inputs are coerced to
`0` and return the good tier; `-5` returns the hazardous tier; and the
unknown tier (`未知`, neutral gray) is returned if and only if the input
is truthy and its float conversion fails — so a falsy input, a numeric
input, or a truthy string that parses (such as `"42"`) never yields it. -/
theorem get_aqi_level_unknown_characterization :
    get_aqi_level PyVal.pyNone = ("良好", "#2ecc71") ∧
    get_aqi_level (PyVal.str "") = ("良好", "#2ecc71") ∧
    get_aqi_level (PyVal.num (-5)) = ("危害", "#4b0082") ∧
    (∀ v : PyVal, get_aqi_level v = ("未知", "#95a5a6") ↔
      (v.truthy = true ∧ pyFloat v = Option.none)) := by
  refine ⟨by decide, by decide, by decide, ?_⟩
  intro v
  constructor
  · intro hu
    rcases ht : v.truthy with _ | _
    · exfalso
      have hg : get_aqi_level v = ("良好", "#2ecc71") := by
        simp only [get_aqi_level, ht, Bool.false_eq_true, if_false,
          AQI_LEVELS, List.findSome?_cons]
        norm_num
      rw [hg] at hu
      exact absurd hu (by decide)
    · refine ⟨rfl, ?_⟩
      rcases hp : pyFloat v with _ | q
      · rfl
      · exfalso
        rw [get_aqi_level_parsed v q ht hp] at hu
        split_ifs at hu <;> exact absurd hu (by decide)
  · rintro ⟨ht, hp⟩
    simp [get_aqi_level, ht, hp]

/-- C1 (witness): the amended theorem applied at the concrete non-numeric
string `"N/A"` (the default index value used by the map renderer) and at
the parsable string `"42"`. -/
theorem get_aqi_level_unknown_witness :
    get_aqi_level (PyVal.str "N/A") = ("未知", "#95a5a6") ∧
    ¬ get_aqi_level (PyVal.str "42") = ("未知", "#95a5a6") :=
  ⟨(get_aqi_level_unknown_characterization.2.2.2 (PyVal.str "N/A")).mpr
      ⟨by decide, by decide⟩,
    fun h => by
      have := (get_aqi_level_unknown_characterization.2.2.2 (PyVal.str "42")).mp h
      exact absurd this.2 (by decide)⟩

/-- C2 (counterexample): `101/2 = 50.5` lies in `[0, 500]` and is not
above `500`, yet the classifier assigns it to no band and returns the
hazardous tier — the inclusive integer bounds leave gaps `(50,51)` and
`(100,101)` for non-integer values. -/
theorem get_aqi_level_gap_hazardous :
    (0 : ℚ) ≤ 101 / 2 ∧ (101 / 2 : ℚ) ≤ 500 ∧ ¬(500 < (101 / 2 : ℚ)) ∧
    get_aqi_level (PyVal.num (101 / 2)) = ("危害", "#4b0082") := by
  refine ⟨by norm_num, by norm_num, by norm_num, ?_⟩
  rw [get_aqi_level_num]
  norm_num

/-- C2 (amended): for every numeric value, each band matches exactly on
its inclusive range, and the catch-all hazardous tier is returned exactly
for values outside all three bands: negative values, the gaps `(50,51)`
and `(100,101)`, and values above `500`.  In particular every integer in
`[0,500]` lands in exactly one band. -/
theorem get_aqi_level_band_partition (q : ℚ) :
    (get_aqi_level (.num q) = ("良好", "#2ecc71") ↔ 0 ≤ q ∧ q ≤ 50) ∧
    (get_aqi_level (.num q) = ("普通", "#ffd700") ↔ 51 ≤ q ∧ q ≤ 100) ∧
    (get_aqi_level (.num q) = ("不健康", "#ff4444") ↔ 101 ≤ q ∧ q ≤ 500) ∧
    (get_aqi_level (.num q) = ("危害", "#4b0082") ↔
      q < 0 ∨ (50 < q ∧ q < 51) ∨ (100 < q ∧ q < 101) ∨ 500 < q) := by
  refine ⟨?_, ?_, ?_, ?_⟩ <;> rw [get_aqi_level_num]
  · split_ifs with h1 h2 h3
    · exact iff_of_true rfl h1
    · exact iff_of_false (by decide) h1
    · exact iff_of_false (by decide) h1
    · exact iff_of_false (by decide) h1
  · split_ifs with h1 h2 h3
    · exact iff_of_false (by decide) fun hc => by linarith [h1.2, hc.1]
    · exact iff_of_true rfl h2
    · exact iff_of_false (by decide) h2
    · exact iff_of_false (by decide) h2
  · split_ifs with h1 h2 h3
    · exact iff_of_false (by decide) fun hc => by linarith [h1.2, hc.1]
    · exact iff_of_false (by decide) fun hc => by linarith [h2.2, hc.1]
    · exact iff_of_true rfl h3
    · exact iff_of_false (by decide) h3
  · split_ifs with h1 h2 h3
    · exact iff_of_false (by decide) fun hc => by
        rcases hc with h | ⟨ha, hb⟩ | ⟨ha, hb⟩ | h <;> linarith [h1.1, h1.2]
    · exact iff_of_false (by decide) fun hc => by
        rcases hc with h | ⟨ha, hb⟩ | ⟨ha, hb⟩ | h <;> linarith [h2.1, h2.2]
    · exact iff_of_false (by decide) fun hc => by
        rcases hc with h | ⟨ha, hb⟩ | ⟨ha, hb⟩ | h <;> linarith [h3.1, h3.2]
    · refine iff_of_true rfl ?_
      by_cases hq : q < 0
      · exact Or.inl hq
      push_neg at hq
      have h50 : 50 < q := by
        by_contra hc; push_neg at hc; exact h1 ⟨hq, hc⟩
      by_cases hq51 : q < 51
      · exact Or.inr (Or.inl ⟨h50, hq51⟩)
      push_neg at hq51
      have h100 : 100 < q := by
        by_contra hc; push_neg at hc; exact h2 ⟨hq51, hc⟩
      by_cases hq101 : q < 101
      · exact Or.inr (Or.inr (Or.inl ⟨h100, hq101⟩))
      push_neg at hq101
      have h500 : 500 < q := by
        by_contra hc; push_neg at hc; exact h3 ⟨hq101, hc⟩
      exact Or.inr (Or.inr (Or.inr h500))

/-- C4: the classifier's values at the band boundaries:
`50 → good`, `51 → moderate`, `100 → moderate`, `101 → unhealthy`,
`500 → unhealthy`, `501 → hazardous`. -/
theorem get_aqi_level_boundaries :
    get_aqi_level (PyVal.num 50) = ("良好", "#2ecc71") ∧
    get_aqi_level (PyVal.num 51) = ("普通", "#ffd700") ∧
    get_aqi_level (PyVal.num 100) = ("普通", "#ffd700") ∧
    get_aqi_level (PyVal.num 101) = ("不健康", "#ff4444") ∧
    get_aqi_level (PyVal.num 500) = ("不健康", "#ff4444") ∧
    get_aqi_level (PyVal.num 501) = ("危害", "#4b0082") := by
  decide

/-- C7: a record whose latitude key is absent, whose sitename key is
absent, or whose longitude does not convert with `float`, contributes no
marker: the marker set with it equals the marker set without it, so the
remaining records are still rendered. -/
theorem createMapMarkers_skips_invalid (rs₁ rs₂ : List Record) (r : Record)
    (h : r.latitude = Option.none ∨ r.sitename = Option.none ∨
      pyFloat (getField r.longitude) = Option.none) :
    createMapMarkers (rs₁ ++ r :: rs₂) = createMapMarkers (rs₁ ++ rs₂) := by
  unfold createMapMarkers
  rw [List.filter_append, List.filter_append, List.filter_cons]
  rcases hv : valid_record r with _ | _
  · simp
  · have hlon : pyFloat (getField r.longitude) = Option.none := by
      rcases h with h | h | h
      · exfalso
        unfold valid_record at hv
        rw [h] at hv
        simp [getField, PyVal.truthy] at hv
      · exfalso
        unfold valid_record at hv
        rw [h] at hv
        simp [getField, PyVal.truthy] at hv
      · exact h
    have hbm : buildMarker r = Option.none := by
      rcases hl : pyFloat (getField r.latitude) with _ | v <;>
        simp [buildMarker, hl, hlon]
    simp [List.filterMap_append, hbm]

/-- C7 (witness): a record with an unparsable longitude `"abc"` is dropped
while the well-formed station next to it still renders. -/
theorem createMapMarkers_skips_invalid_witness :
    createMapMarkers
      [⟨some (.str "劣站"), Option.none, some (.num 70), Option.none, Option.none,
        some (.str "25"), some (.str "abc"), Option.none⟩,
       ⟨some (.str "中山"), some (.str "臺北市"), some (.num 42), Option.none, Option.none,
        some (.str "25"), some (.str "121"), Option.none⟩] =
    createMapMarkers
      [⟨some (.str "中山"), some (.str "臺北市"), some (.num 42), Option.none, Option.none,
        some (.str "25"), some (.str "121"), Option.none⟩] :=
  createMapMarkers_skips_invalid []
    [⟨some (.str "中山"), some (.str "臺北市"), some (.num 42), Option.none, Option.none,
      some (.str "25"), some (.str "121"), Option.none⟩]
    ⟨some (.str "劣站"), Option.none, some (.num 70), Option.none, Option.none,
      some (.str "25"), some (.str "abc"), Option.none⟩
    (Or.inr (Or.inr (by decide)))

/-- C9: the validity filter tests truthiness, so a coordinate holding the
falsy value `0` — a perfectly parsable coordinate, as the first conjunct
records — or the falsy empty string excludes the record from the marker
set. -/
theorem createMapMarkers_excludes_falsy_coordinate :
    pyFloat (PyVal.num 0) = some 0 ∧
    ∀ (rs₁ rs₂ : List Record) (r : Record),
      (r.latitude = some (PyVal.num 0) ∨ r.latitude = some (PyVal.str "") ∨
        r.longitude = some (PyVal.num 0) ∨ r.longitude = some (PyVal.str "")) →
      createMapMarkers (rs₁ ++ r :: rs₂) = createMapMarkers (rs₁ ++ rs₂) := by
  refine ⟨rfl, ?_⟩
  intro rs₁ rs₂ r h
  have hv : valid_record r = false := by
    rcases h with h | h | h | h <;>
      simp [valid_record, h, getField, PyVal.truthy, String.isEmpty]
  unfold createMapMarkers
  rw [List.filter_append, List.filter_append, List.filter_cons, hv]
  simp

/-- C9 (witness): a station at latitude `0` (parsable, but falsy) is
excluded even though its coordinates convert, while its neighbour
renders. -/
theorem createMapMarkers_excludes_falsy_coordinate_witness :
    createMapMarkers
      [⟨some (.str "零站"), Option.none, some (.num 55), Option.none, Option.none,
        some (PyVal.num 0), some (.str "121"), Option.none⟩,
       ⟨some (.str "中山"), some (.str "臺北市"), some (.num 42), Option.none, Option.none,
        some (.str "25"), some (.str "121"), Option.none⟩] =
    createMapMarkers
      [⟨some (.str "中山"), some (.str "臺北市"), some (.num 42), Option.none, Option.none,
        some (.str "25"), some (.str "121"), Option.none⟩] :=
  createMapMarkers_excludes_falsy_coordinate.2 []
    [⟨some (.str "中山"), some (.str "臺北市"), some (.num 42), Option.none, Option.none,
      some (.str "25"), some (.str "121"), Option.none⟩]
    ⟨some (.str "零站"), Option.none, some (.num 55), Option.none, Option.none,
      some (PyVal.num 0), some (.str "121"), Option.none⟩
    (Or.inl rfl)

/-- The two delta terms of the haversine formula are insensitive to
swapping the endpoints: `sin(radians(y - x) / 2)² = sin(radians(x - y) / 2)²`. -/
theorem sin_sq_radians_swap (x y : ℝ) :
    Real.sin (radians (y - x) / 2) ^ 2 = Real.sin (radians (x - y) / 2) ^ 2 := by
  have hneg : radians (x - y) / 2 = -(radians (y - x) / 2) := by
    unfold radians; ring
  rw [hneg, Real.sin_neg, neg_sq]

/-- C8: `calculate_distance` is symmetric in its two coordinate pairs for
all in-range inputs. -/
theorem calculate_distance_symm (lat1 lon1 lat2 lon2 : ℝ)
    (hlat1 : -90 ≤ lat1 ∧ lat1 ≤ 90) (hlon1 : -180 ≤ lon1 ∧ lon1 ≤ 180)
    (hlat2 : -90 ≤ lat2 ∧ lat2 ≤ 90) (hlon2 : -180 ≤ lon2 ∧ lon2 ≤ 180) :
    calculate_distance lat1 lon1 lat2 lon2 = calculate_distance lat2 lon2 lat1 lon1 := by
  unfold calculate_distance
  dsimp only
  rw [sin_sq_radians_swap lat1 lat2, sin_sq_radians_swap lon1 lon2,
    mul_comm (Real.cos (radians lat1)) (Real.cos (radians lat2))]

/-- C8 (witness): symmetry at the spec's end-to-end scenario coordinates,
Station A (25.0330, 121.5654) against Station B (22.6273, 120.3014). -/
theorem calculate_distance_symm_witness :
    calculate_distance 25.0330 121.5654 22.6273 120.3014 =
      calculate_distance 22.6273 120.3014 25.0330 121.5654 :=
  calculate_distance_symm 25.0330 121.5654 22.6273 120.3014
    (by norm_num) (by norm_num) (by norm_num) (by norm_num)

/-- Key `rowLe` is transitive (needed for `mergeSort` sortedness). -/
theorem rowLe_trans (a b c : Row) (hab : rowLe a b = true) (hbc : rowLe b c = true) :
    rowLe a c = true := by
  obtain ⟨ra, da⟩ := a
  obtain ⟨rb, db⟩ := b
  obtain ⟨rc, dc⟩ := c
  rcases da with _ | x <;> rcases db with _ | y <;> rcases dc with _ | z <;>
    simp_all [rowLe] <;> exact le_trans hab hbc

/-- Key `rowLe` is total (needed for `mergeSort` sortedness). -/
theorem rowLe_total (a b : Row) : rowLe a b || rowLe b a := by
  obtain ⟨ra, da⟩ := a
  obtain ⟨rb, db⟩ := b
  rcases da with _ | x <;> rcases db with _ | y <;> simp [rowLe]
  exact le_total x y

/-- A `rowLe`-sorted adjacency satisfies the claim's ordering relation. -/
theorem reportOrder_of_rowLe (a b : Row) (h : rowLe a b = true) : reportOrder a b := by
  obtain ⟨ra, da⟩ := a
  obtain ⟨rb, db⟩ := b
  rcases da with _ | x <;> rcases db with _ | y <;> simp_all [rowLe, reportOrder]

/-- C6: whenever `create_data_report` produces a report, its rows are
pairwise in `reportOrder`: non-decreasing in the computed distance, and
every null-distance row strictly after all non-null ones. -/
theorem create_data_report_sorted (records : List Record) :
    (create_data_report records).elim True (fun rows => rows.Pairwise reportOrder) := by
  unfold create_data_report
  rcases he : records.isEmpty with _ | _
  · rcases hm : applyRows (records.any fun r => r.latitude.isSome)
        (records.any fun r => r.longitude.isSome) records with e | rows
    · simp [hm]
    · simp only [he, Bool.false_eq_true, if_false, hm, Option.elim]
      exact (List.sorted_mergeSort rowLe_trans rowLe_total rows).imp
        fun {a b} h => reportOrder_of_rowLe a b h
  · simp [he]

/-- The first row whose distance computation raises aborts the whole
`df.apply`. -/
theorem applyRows_error_of_mem (latCol lonCol : Bool) (records : List Record)
    (r : Record) (hmem : r ∈ records)
    (herr : rowDistance latCol lonCol r = .error ()) :
    applyRows latCol lonCol records = .error () := by
  induction records with
  | nil => cases hmem
  | cons x xs ih =>
    rcases List.mem_cons.mp hmem with h | h
    · subst h
      simp [applyRows, herr]
    · rcases hx : rowDistance latCol lonCol x with e | d
      · simp [applyRows, hx]
      · simp [applyRows, hx, ih h]

/-- C3 (amended): per record, when both coordinate cells are non-na the
distance cell is `calculate_distance` of the float-converted coordinates
to the Taipei Main Station reference point — but when a present coordinate
fails float conversion the `ValueError` escapes `df.apply` and the whole
report is aborted (`none`), there is no null-distance row for it; a row
with an absent/na coordinate does get a null distance. -/
theorem create_data_report_distance_rule (records : List Record) (r : Record)
    (hmem : r ∈ records)
    (hlatCol : (records.any fun x => x.latitude.isSome) = true)
    (hlonCol : (records.any fun x => x.longitude.isSome) = true) :
    ((notna r.latitude = true ∧ notna r.longitude = true) →
      (∀ la lo, pyFloat (getField r.latitude) = some la →
          pyFloat (getField r.longitude) = some lo →
          rowDistance true true r =
            .ok (some (calculate_distance (la : ℝ) (lo : ℝ)
              taipei_station_lat taipei_station_lon))) ∧
      ((pyFloat (getField r.latitude) = Option.none ∨
          pyFloat (getField r.longitude) = Option.none) →
        create_data_report records = none)) ∧
    (¬(notna r.latitude = true ∧ notna r.longitude = true) →
      rowDistance true true r = .ok Option.none) := by
  constructor
  · rintro ⟨hla, hlo⟩
    constructor
    · intro la lo hpla hplo
      simp [rowDistance, hla, hlo, hpla, hplo]
    · intro hfail
      have herr : rowDistance true true r = .error () := by
        rcases hfail with h | h
        · simp [rowDistance, hla, hlo, h]
        · rcases hl : pyFloat (getField r.latitude) with _ | v <;>
            simp [rowDistance, hla, hlo, h, hl]
      have hne : records.isEmpty = false := by
        rw [Bool.eq_false_iff]
        intro hb
        exact List.ne_nil_of_mem hmem (List.isEmpty_iff.mp hb)
      unfold create_data_report
      simp only [hne, Bool.false_eq_true, if_false, hlatCol, hlonCol]
      rw [applyRows_error_of_mem true true records r hmem herr]
  · intro hno
    rcases hl : notna r.latitude with _ | _
    · simp [rowDistance, hl]
    · have hlo : notna r.longitude = false := by
        rcases hq : notna r.longitude with _ | _
        · rfl
        · exact absurd ⟨hl, hq⟩ hno
      simp [rowDistance, hl, hlo]

/-- C3 (witness): the amended theorem at a two-record set — the second
record carries both coordinate keys (so the frame has the columns), the
first has no latitude key, so its row gets a null distance. -/
theorem create_data_report_distance_rule_witness :
    rowDistance true true
      ⟨some (.str "無座標"), Option.none, some (.num 42), Option.none, Option.none,
        Option.none, Option.none, Option.none⟩ = .ok Option.none :=
  (create_data_report_distance_rule
    [⟨some (.str "無座標"), Option.none, some (.num 42), Option.none, Option.none,
        Option.none, Option.none, Option.none⟩,
     ⟨some (.str "中山"), some (.str "臺北市"), some (.num 42), Option.none, Option.none,
        some (.str "25"), some (.str "121"), Option.none⟩]
    ⟨some (.str "無座標"), Option.none, some (.num 42), Option.none, Option.none,
        Option.none, Option.none, Option.none⟩
    (by decide) (by decide) (by decide)).2 (by decide)

/-- C3 (counterexample): a record whose latitude is present but not
numeric (`"abc"`) does not get a null-distance row — the whole report
construction aborts and no report is produced at all. -/
theorem create_data_report_nonnumeric_aborts :
    create_data_report
      [⟨some (.str "士林"), Option.none, some (.num 42), Option.none, Option.none,
        some (.str "abc"), some (.str "121"), Option.none⟩] = none := by
  rfl

/-- C10: when the fetch succeeds but returns an empty record list, `main`
bails out at `if not records` exactly as on a fetch failure: neither the
map nor the report is produced. -/
theorem main_empty_records_no_output (key : String) (resp : ApiResponse)
    (hk : key.isEmpty = false)
    (hr : fetch_aqi_data resp = .ok (some [])) :
    mainRun (some key) resp = some ⟨Option.none, Option.none⟩ ∧
    mainRun (some key) resp = mainRun (some key) .transportFailure := by
  have h1 : mainRun (some key) resp = some ⟨Option.none, Option.none⟩ := by
    unfold mainRun
    rw [hr]
    simp [hk]
  have h2 : mainRun (some key) .transportFailure = some ⟨Option.none, Option.none⟩ := by
    unfold mainRun
    simp [hk, fetch_aqi_data]
  exact ⟨h1, h1.trans h2.symm⟩

/-- C10 (witness): a concrete run with a non-empty key and a fetch that
returns a bare empty list produces no artifacts. -/
theorem main_empty_records_no_output_witness :
    mainRun (some "key") (ApiResponse.jsonList []) = some ⟨Option.none, Option.none⟩ :=
  (main_empty_records_no_output "key" (ApiResponse.jsonList []) (by decide) rfl).1
